import Mathlib

/-!
Verification development for the Turtlebot3 EKF-SLAM repository.

This file gives a shallow embedding of the parts of the code that the
checked claims are about:

* `turtlelib` EKF-SLAM estimator (`src/turtlelib/src/kalman.cpp`,
  `src/turtlelib/include/turtlelib/kalman.hpp`): the `KalmanFilter`
  class with its `predict`, `update_measurements` and `update`
  operations and the accessors `pose_prediction`, `map_prediction`
  and `state_prediction`.
* the `nusim` simulator node (`src/nusim/src/nusim.cpp`): the
  actuation noise / slip model of `wheel_cmd_callback`, the state
  updates of `timer_callback`, and the collision resolver
  `detect_collision`.

C++ doubles are embedded as real numbers; armadillo column vectors as
lists of reals; general armadillo matrices as a dimension pair together
with an entry function.  The armadillo element accessor `operator()` is
bounds checked by default (it throws `std::logic_error` when an index is
out of range); accesses whose in-bounds status matters for a claim are
embedded with `Option`, and an operation that can throw reports, next to
the mutated state, whether it faulted.  Randomness (Gaussian noise and
uniform slip draws in `nusim`) is embedded by passing the drawn samples
as explicit arguments.

Helper functions of the repository that the given sources call but whose
translation units are not part of the source set (`turtlelib::normalize_angle`,
`turtlelib::almost_equal`, `turtlelib::distance`, `DiffDrive::forward_kinematics`)
are modelled from the specification; each such definition carries a doc
comment saying so.
-/

namespace Turtlebot

noncomputable section

/-- Modelled from the spec: the default tolerance of `turtlelib::almost_equal`
(declared in `turtlelib/rigid2d.hpp`, whose translation unit is not among the
given sources).  The spec only asks for a test of `thetadot ≈ 0` and of
exactly-zero commands; the embedded tolerance is the customary `1.0e-12`. -/
def eps : ℝ := 1 / 10 ^ 12

/-- Modelled from the spec: `turtlelib::almost_equal(d1, d2)` compares two
doubles up to the fixed tolerance `eps`. -/
def almost_equal (a b : ℝ) : Prop := |a - b| < eps

instance almost_equal.dec (a b : ℝ) : Decidable (almost_equal a b) :=
  inferInstanceAs (Decidable (|a - b| < eps))

/-- Modelled from the spec: `turtlelib::normalize_angle` reduces an angle
into the interval `(-π, π]` (spec §4.1); the translation unit defining it is
not among the given sources.  The embedding subtracts the unique multiple of
`2π` that lands in that interval. -/
def normalize_angle (θ : ℝ) : ℝ :=
  θ - 2 * Real.pi * (⌈(θ - Real.pi) / (2 * Real.pi)⌉ : ℤ)

/-- Embedding of `std::atan2 y x`: the principal argument, in `(-π, π]`, of
the planar vector `(x, y)`. -/
def atan2 (y x : ℝ) : ℝ := Complex.arg ⟨x, y⟩

/-- Modelled from the spec: `turtlelib::distance` between two planar points
is the Euclidean distance (spec §4.4 asks the collision resolver to compute
the Euclidean distance); its translation unit is not among the given sources. -/
def distance (p1 p2 : ℝ × ℝ) : ℝ :=
  Real.sqrt ((p1.1 - p2.1) ^ 2 + (p1.2 - p2.2) ^ 2)

/-- Embedding of the C cast `(int)x` for a double `x`: truncation toward
zero. -/
def cIntCast (x : ℝ) : ℤ := if 0 ≤ x then ⌊x⌋ else ⌈x⌉

/-- Embedding of a dynamically sized `arma::mat`: the dimension pair plus an
entry function (row, column). -/
structure Mat where
  n_rows : ℕ
  n_cols : ℕ
  entry : ℕ → ℕ → ℝ

namespace Mat

/-- Embedding of a default constructed `arma::mat` (as for the member
`mt_hat` of `KalmanFilter`): a `0 × 0` matrix. -/
def empty : Mat := ⟨0, 0, fun _ _ => 0⟩

/-- Embedding of `arma::mat(r, c, arma::fill::zeros)`. -/
def zeros (r c : ℕ) : Mat := ⟨r, c, fun _ _ => 0⟩

/-- Embedding of the bounds checked armadillo element accessor
`A(i, j)`: `none` corresponds to the thrown `std::logic_error`. -/
def at? (A : Mat) (i j : ℕ) : Option ℝ :=
  if i < A.n_rows ∧ j < A.n_cols then some (A.entry i j) else none

/-- Embedding of `A * B` (matrix product; armadillo would reject mismatched
inner dimensions at runtime, which never happens on the states the code
reaches). -/
def mul (A B : Mat) : Mat :=
  ⟨A.n_rows, B.n_cols, fun i j => ∑ k ∈ Finset.range A.n_cols, A.entry i k * B.entry k j⟩

/-- Embedding of `A + B` (entrywise sum; the code only adds size-matched
matrices). -/
def add (A B : Mat) : Mat :=
  ⟨A.n_rows, A.n_cols, fun i j => A.entry i j + B.entry i j⟩

/-- Embedding of `A.t()` (transpose). -/
def transpose (A : Mat) : Mat := ⟨A.n_cols, A.n_rows, fun i j => A.entry j i⟩

end Mat

/-- Embedding of `arma::mat{a, b}` built from a flat initializer list: a
`1 × 2` row matrix. -/
def rowMat (a b : ℝ) : Mat :=
  ⟨1, 2, fun i j => if i = 0 ∧ j = 0 then a else if i = 0 ∧ j = 1 then b else 0⟩

/-- Embedding of `turtlelib::Twist2D` (angular and linear body velocity). -/
structure Twist2D where
  thetadot : ℝ
  xdot : ℝ
  ydot : ℝ

/-- Embedding of `turtlelib::LandmarkMeasurement` (`kalman.hpp`): range,
bearing and marker id. -/
structure LandmarkMeasurement where
  r : ℝ
  phi : ℝ
  marker_id : ℤ

/-- Embedding of `std::map<int,int>::count(k) != 0` style lookup on the
association list embedding of the landmark dictionary. -/
def mapLookup (d : List (ℤ × ℕ)) (k : ℤ) : Option ℕ :=
  match d with
  | [] => none
  | (a, v) :: t => if a = k then some v else mapLookup t k

/-- Embedding of `std::map::count` as a Boolean membership test. -/
def mapContains (d : List (ℤ × ℕ)) (k : ℤ) : Bool := (mapLookup d k).isSome

/-- Embedding of inserting a fresh key into the `std::map` (the code only
inserts a key it has just found absent). -/
def mapInsert (d : List (ℤ × ℕ)) (k : ℤ) (v : ℕ) : List (ℤ × ℕ) := d ++ [(k, v)]

/-- Embedding of `std::map::operator[]` on an `int` key: returns the mapped
value, default inserting `0` when the key is absent. -/
def mapFindOrInsert (d : List (ℤ × ℕ)) (k : ℤ) : List (ℤ × ℕ) × ℕ :=
  match mapLookup d k with
  | some v => (d, v)
  | none => (mapInsert d k 0, 0)

/-- Embedding of the `turtlelib::KalmanFilter` state (`kalman.hpp` lines
52-61): predicted robot state `qt_hat` (3 × 1), predicted map state `mt_hat`,
full state `Xi_hat`, covariance `sigma_hat`, process noise `Q_mat`, and the
id-to-index dictionary `landmarks_dict`. -/
structure KalmanFilter where
  qt_hat : List ℝ
  mt_hat : Mat
  Xi_hat : List ℝ
  sigma_hat : Mat
  Q_mat : Mat
  landmarks_dict : List (ℤ × ℕ)

namespace KalmanFilter

/-- Embedding of the `KalmanFilter` constructor (`kalman.cpp` lines 41-47):
`qt_hat` and `Xi_hat` are `3 × 1` zero vectors, `sigma_hat` and `Q_mat` are
`3 × 3` zero matrices, `mt_hat` is default constructed and the dictionary is
empty. -/
def init : KalmanFilter :=
  { qt_hat := [0, 0, 0]
    mt_hat := Mat.empty
    Xi_hat := [0, 0, 0]
    sigma_hat := Mat.zeros 3 3
    Q_mat := Mat.zeros 3 3
    landmarks_dict := [] }

end KalmanFilter

/-- Embedding of `arma::eye(3,3) + A_t` where `A_t` is zero except for the
entries `(1,0)` and `(2,0)` (`kalman.cpp` lines 54, 64-65, 77-82). -/
def predictA (a10 a20 : ℝ) : Mat :=
  ⟨3, 3, fun i j =>
    (if i = j then 1 else 0) +
      (if i = 1 ∧ j = 0 then a10 else 0) +
      (if i = 2 ∧ j = 0 then a20 else 0)⟩

/-- Embedding of `KalmanFilter::predict` (`kalman.cpp` lines 49-89).  The
code reads the pose entries of `Xi_hat` (always in bounds: `Xi_hat` starts
with 3 rows and only ever grows, so the total `getD` access agrees with the
checked armadillo accessor), branches on `almost_equal(V.thetadot, 0.0)`,
writes the new prediction into `qt_hat` only, and propagates `sigma_hat`
through the `3 × 3` Jacobian. -/
def predict (V : Twist2D) (kf : KalmanFilter) : KalmanFilter :=
  let th := (kf.Xi_hat.get? 0).getD 0
  let x := (kf.Xi_hat.get? 1).getD 0
  let y := (kf.Xi_hat.get? 2).getD 0
  if almost_equal V.thetadot 0 then
    let qt_hat_new : List ℝ := [0, x + V.xdot * Real.cos th, y + V.xdot * Real.sin th]
    let A_t := predictA (-V.xdot * Real.sin th) (V.xdot * Real.cos th)
    { kf with
      qt_hat := qt_hat_new
      sigma_hat := Mat.add (Mat.mul (Mat.mul A_t kf.sigma_hat) A_t.transpose) kf.Q_mat }
  else
    let w := V.xdot / V.thetadot
    let qt_hat_new : List ℝ :=
      [normalize_angle (th + V.thetadot),
       x - w * Real.sin th + w * Real.sin (th + V.thetadot),
       y + w * Real.cos th - w * Real.cos (th + V.thetadot)]
    let A_t := predictA (-w * Real.cos th + w * Real.cos (th + V.thetadot))
      (-w * Real.sin th + w * Real.sin (th + V.thetadot))
    { kf with
      qt_hat := qt_hat_new
      sigma_hat := Mat.add (Mat.mul (Mat.mul A_t kf.sigma_hat) A_t.transpose) kf.Q_mat }

/-- Embedding of `KalmanFilter::update_measurements` (`kalman.cpp` lines
91-119).  An unseen marker id is initialized: its global position is computed
from the pose entries of `Xi_hat`, appended to `Xi_hat` (`arma::join_cols`),
and the dictionary records `Xi_hat.n_rows` measured after the append.  The
two trailing comments of the source (resizing `sigma_hat` and `Q_mat`) have
no code, so neither matrix is touched. -/
def update_measurements (measurement : LandmarkMeasurement) (kf : KalmanFilter) :
    KalmanFilter :=
  if mapContains kf.landmarks_dict measurement.marker_id then kf
  else
    let th := (kf.Xi_hat.get? 0).getD 0
    let x := (kf.Xi_hat.get? 1).getD 0
    let y := (kf.Xi_hat.get? 2).getD 0
    let mx_j := x + measurement.r * Real.cos (normalize_angle (measurement.phi + th))
    let my_j := y + measurement.r * Real.sin (normalize_angle (measurement.phi + th))
    let Xi_new := kf.Xi_hat ++ [mx_j, my_j]
    { kf with
      Xi_hat := Xi_new
      landmarks_dict := mapInsert kf.landmarks_dict measurement.marker_id Xi_new.length }

/-- Embedding of the local computations of one iteration of the loop in
`KalmanFilter::update` (`kalman.cpp` lines 129-138): the checked reads
`Xi_hat(index, 0)` and `Xi_hat(index + 1, 0)`, the `1 × 2` row `mj`, and the
expected measurement `h = [r_j, phi_j]` built from the checked reads
`mj(0,0)` and `mj(1,0)`.  The result is `none` when any checked access is
out of bounds (armadillo throws); note that `mj(1, 0)` names row 1 of the
1-row matrix `mj`, so the computation faults even when `index` is in
bounds. -/
def correctLocals (index : ℕ) (kf : KalmanFilter) : Option Mat :=
  match kf.Xi_hat.get? index, kf.Xi_hat.get? (index + 1) with
  | some a, some b =>
    let mj := rowMat a b
    match mj.at? 0 0, mj.at? 1 0 with
    | some m00, some m10 =>
      let th := (kf.Xi_hat.get? 0).getD 0
      let x := (kf.Xi_hat.get? 1).getD 0
      let y := (kf.Xi_hat.get? 2).getD 0
      let r_j := Real.sqrt ((m00 - x) ^ 2 + (m10 - y) ^ 2)
      let phi_j := normalize_angle (atan2 (m10 - y) (m00 - x) - th)
      some (rowMat r_j phi_j)
    | _, _ => none
  | _, _ => none

/-- Embedding of one iteration of the loop in `KalmanFilter::update`
(`kalman.cpp` lines 124-144): associate or initialize the measurement, look
the id up with `std::map::operator[]`, and run the local computations of the
iteration.  The Boolean records whether the iteration faulted with an
out-of-bounds access; the returned state carries the mutations made before
the fault.  The loop body ends after computing `h`: the comments numbered 2
to 4 of the source (Kalman gain, posterior state, posterior covariance) have
no code. -/
def updateOne (m : LandmarkMeasurement) (kf : KalmanFilter) : KalmanFilter × Bool :=
  let kf1 := update_measurements m kf
  let p := mapFindOrInsert kf1.landmarks_dict m.marker_id
  let kf2 : KalmanFilter := { kf1 with landmarks_dict := p.1 }
  (kf2, (correctLocals p.2 kf2).isNone)

/-- Embedding of `KalmanFilter::update` (`kalman.cpp` lines 121-145): the
measurements are processed sequentially; a thrown out-of-bounds access ends
the loop (the exception propagates), with the mutations made so far retained
in the object.  The Boolean records whether the call faulted. -/
def update (ms : List LandmarkMeasurement) (kf : KalmanFilter) : KalmanFilter × Bool :=
  match ms with
  | [] => (kf, false)
  | m :: rest =>
    let r := updateOne m kf
    if r.2 then r else update rest r.1

/-- Embedding of `KalmanFilter::pose_prediction` (`kalman.cpp` lines 147-150). -/
def pose_prediction (kf : KalmanFilter) : List ℝ := kf.qt_hat

/-- Embedding of `KalmanFilter::map_prediction` (`kalman.cpp` lines 152-155). -/
def map_prediction (kf : KalmanFilter) : Mat := kf.mt_hat

/-- Embedding of `KalmanFilter::state_prediction` (`kalman.cpp` lines 157-160). -/
def state_prediction (kf : KalmanFilter) : List ℝ := kf.Xi_hat

/-- States of the filter reachable from the constructor through its public
operations. -/
inductive Reachable : KalmanFilter → Prop
  | ofInit : Reachable KalmanFilter.init
  | ofPredict (V : Twist2D) (kf : KalmanFilter) :
      Reachable kf → Reachable (predict V kf)
  | ofUpdateMeasurements (m : LandmarkMeasurement) (kf : KalmanFilter) :
      Reachable kf → Reachable (update_measurements m kf)
  | ofUpdate (ms : List LandmarkMeasurement) (kf : KalmanFilter) :
      Reachable kf → Reachable (update ms kf).1

/-- Embedding of `turtlelib::WheelState` (a left/right pair of reals). -/
structure WheelState where
  left : ℝ
  right : ℝ

/-- Embedding of `turtlelib::Pose2D`. -/
structure Pose2D where
  x : ℝ
  y : ℝ
  theta : ℝ

/-- Parameters of the `Nusim` node that the embedded callbacks read
(`nusim.cpp` lines 189-211). -/
structure NusimParams where
  motor_cmd_per_rad_sec : ℝ
  rate : ℤ
  input_noise : ℝ
  slip_fraction : ℝ
  encoder_ticks_per_rad : ℝ
  obstacles : List (ℝ × ℝ)
  obstacles_r : ℝ
  collision_radius : ℝ

/-- Mutable state of the `Nusim` node touched by the embedded callbacks
(`nusim.cpp` lines 206-220, 251): wheel speeds and angles of the noisy and
the true path, the stored noise and slip samples, the ground truth pose, and
the encoder fields of the sensor message. -/
structure NusimState where
  true_wheel_speeds : WheelState
  noisy_wheel_speeds : WheelState
  true_wheel_angles : WheelState
  slippy_wheel_angles : WheelState
  left_noise : ℝ
  right_noise : ℝ
  left_slip : ℝ
  right_slip : ℝ
  true_pose : Pose2D
  left_encoder : ℤ
  right_encoder : ℤ
  step : ℕ

/-- Embedding of the loop body of `Nusim::detect_collision` (`nusim.cpp`
lines 264-279) for a single obstacle: when the distance between robot and
obstacle centers is at most `obstacles_r + collision_radius`, the robot is
repositioned at exactly that distance from the obstacle center along the
direction from the obstacle center to the robot center. -/
def resolve_collision (obstacles_r collision_radius : ℝ) (ob : ℝ × ℝ) (p : Pose2D) :
    Pose2D :=
  let d := distance ob (p.x, p.y)
  let dc := d - (obstacles_r + collision_radius)
  if dc ≤ 0 then
    let collision_angle := atan2 (p.y - ob.2) (p.x - ob.1)
    let distance_to_move := obstacles_r + collision_radius
    { p with
      x := ob.1 + Real.cos collision_angle * distance_to_move
      y := ob.2 + Real.sin collision_angle * distance_to_move }
  else p

/-- Embedding of `Nusim::detect_collision` (`nusim.cpp` lines 260-282): the
obstacles are processed sequentially in declaration order (the guard on an
empty obstacle list is subsumed by the empty fold). -/
def detect_collision (obstacles_r collision_radius : ℝ) (obs : List (ℝ × ℝ))
    (p : Pose2D) : Pose2D :=
  obs.foldl (fun q ob => resolve_collision obstacles_r collision_radius ob q) p

/-- Embedding of `Nusim::wheel_cmd_callback` (`nusim.cpp` lines 286-322).
The integer commands are converted to the noise-free true wheel speeds; a
wheel whose command is `almost_equal` to zero copies the true speed into the
noisy speed, otherwise the drawn Gaussian sample (`noise_l` / `noise_r`,
passed explicitly here) is added; when the slip fraction is not
`almost_equal` to zero the uniformly drawn slip samples (`slip_r` drawn
first in the source, then `slip_l`) are stored. -/
def wheel_cmd_callback (P : NusimParams) (cmd_left cmd_right : ℤ)
    (noise_l noise_r slip_l slip_r : ℝ) (s : NusimState) : NusimState :=
  let tl := (cmd_left : ℝ) * P.motor_cmd_per_rad_sec
  let tr := (cmd_right : ℝ) * P.motor_cmd_per_rad_sec
  let nl := if almost_equal (cmd_left : ℝ) 0 then tl
    else (cmd_left : ℝ) * P.motor_cmd_per_rad_sec + noise_l
  let nr := if almost_equal (cmd_right : ℝ) 0 then tr
    else (cmd_right : ℝ) * P.motor_cmd_per_rad_sec + noise_r
  let lnoise := if almost_equal (cmd_left : ℝ) 0 then s.left_noise else noise_l
  let rnoise := if almost_equal (cmd_right : ℝ) 0 then s.right_noise else noise_r
  if ¬almost_equal P.slip_fraction 0 then
    { s with
      true_wheel_speeds := ⟨tl, tr⟩
      noisy_wheel_speeds := ⟨nl, nr⟩
      left_noise := lnoise
      right_noise := rnoise
      right_slip := slip_r
      left_slip := slip_l }
  else
    { s with
      true_wheel_speeds := ⟨tl, tr⟩
      noisy_wheel_speeds := ⟨nl, nr⟩
      left_noise := lnoise
      right_noise := rnoise }

/-- Embedding of the state updates of `Nusim::timer_callback` (`nusim.cpp`
lines 354-427), parameterized by the forward kinematics function `fk` of the
`DiffDrive` member (its translation unit is not among the given sources; the
claims below quantify over it).  The true wheel angles integrate the true
(noise-free) wheel speeds; the slippy wheel angles integrate the noisy wheel
speeds scaled by `1 + slip`; the encoder fields quantize the slippy angles;
the ground truth pose is advanced by forward kinematics on the true wheel
angles and then collision-resolved.  Publishing, transform broadcasting, the
path message and its pacing counter are transport-layer effects outside the
embedded state. -/
def timer_callback (fk : Pose2D → WheelState → Pose2D) (P : NusimParams)
    (s : NusimState) : NusimState :=
  let dt := 1 / (P.rate : ℝ)
  let twa : WheelState :=
    ⟨s.true_wheel_angles.left + s.true_wheel_speeds.left * dt,
     s.true_wheel_angles.right + s.true_wheel_speeds.right * dt⟩
  let swa : WheelState :=
    ⟨s.slippy_wheel_angles.left + s.noisy_wheel_speeds.left * (1 + s.left_slip) * dt,
     s.slippy_wheel_angles.right + s.noisy_wheel_speeds.right * (1 + s.right_slip) * dt⟩
  let pose1 := fk s.true_pose twa
  let pose2 := detect_collision P.obstacles_r P.collision_radius P.obstacles pose1
  { s with
    true_wheel_angles := twa
    slippy_wheel_angles := swa
    left_encoder := cIntCast (swa.left * P.encoder_ticks_per_rad)
    right_encoder := cIntCast (swa.right * P.encoder_ticks_per_rad)
    true_pose := pose2
    step := s.step + 1 }

/-! Helper lemmas. -/

lemma normalize_angle_eq_self {θ : ℝ} (h1 : -Real.pi < θ) (h2 : θ ≤ Real.pi) :
    normalize_angle θ = θ := by
  have hpi := Real.pi_pos
  have hc : (⌈(θ - Real.pi) / (2 * Real.pi)⌉ : ℤ) = 0 := by
    rw [Int.ceil_eq_zero_iff]
    constructor
    · rw [lt_div_iff (by positivity)]
      linarith
    · apply div_nonpos_of_nonpos_of_nonneg <;> linarith
  rw [normalize_angle, hc]
  push_cast
  ring

lemma normalize_angle_zero : normalize_angle 0 = 0 :=
  normalize_angle_eq_self (by linarith [Real.pi_pos]) (le_of_lt Real.pi_pos)

lemma normalize_angle_one : normalize_angle 1 = 1 :=
  normalize_angle_eq_self (by linarith [Real.pi_pos]) (by linarith [Real.pi_gt_three])

lemma almost_equal_self_zero : almost_equal 0 0 := by
  simp [almost_equal, eps]

lemma not_almost_equal_of_int_ne_zero {c : ℤ} (hc : c ≠ 0) :
    ¬almost_equal (c : ℝ) 0 := by
  intro h
  rw [almost_equal, sub_zero] at h
  have h1 : (1 : ℝ) ≤ |(c : ℝ)| := by exact_mod_cast Int.one_le_abs hc
  have h2 : eps < 1 := by norm_num [eps]
  linarith

lemma predict_Xi_hat (V : Twist2D) (kf : KalmanFilter) :
    (predict V kf).Xi_hat = kf.Xi_hat := by
  unfold predict
  split <;> rfl

lemma predict_mt_hat (V : Twist2D) (kf : KalmanFilter) :
    (predict V kf).mt_hat = kf.mt_hat := by
  unfold predict
  split <;> rfl

lemma predict_landmarks_dict (V : Twist2D) (kf : KalmanFilter) :
    (predict V kf).landmarks_dict = kf.landmarks_dict := by
  unfold predict
  split <;> rfl

lemma update_measurements_qt_hat (m : LandmarkMeasurement) (kf : KalmanFilter) :
    (update_measurements m kf).qt_hat = kf.qt_hat := by
  unfold update_measurements
  split <;> rfl

lemma update_measurements_sigma_hat (m : LandmarkMeasurement) (kf : KalmanFilter) :
    (update_measurements m kf).sigma_hat = kf.sigma_hat := by
  unfold update_measurements
  split <;> rfl

lemma update_measurements_mt_hat (m : LandmarkMeasurement) (kf : KalmanFilter) :
    (update_measurements m kf).mt_hat = kf.mt_hat := by
  unfold update_measurements
  split <;> rfl

lemma update_measurements_Xi_append (m : LandmarkMeasurement) (kf : KalmanFilter) :
    ∃ t, (update_measurements m kf).Xi_hat = kf.Xi_hat ++ t := by
  unfold update_measurements
  split
  · exact ⟨[], (List.append_nil _).symm⟩
  · exact ⟨_, rfl⟩

lemma correctLocals_eq_none (i : ℕ) (kf : KalmanFilter) :
    correctLocals i kf = none := by
  unfold correctLocals
  cases h1 : kf.Xi_hat.get? i <;> cases h2 : kf.Xi_hat.get? (i + 1) <;>
    simp [Mat.at?, rowMat]

lemma updateOne_fst (m : LandmarkMeasurement) (kf : KalmanFilter) :
    (updateOne m kf).1 =
      { update_measurements m kf with
        landmarks_dict :=
          (mapFindOrInsert (update_measurements m kf).landmarks_dict m.marker_id).1 } :=
  rfl

lemma updateOne_snd (m : LandmarkMeasurement) (kf : KalmanFilter) :
    (updateOne m kf).2 = true := by
  simp [updateOne, correctLocals_eq_none]

lemma update_cons (m : LandmarkMeasurement) (rest : List LandmarkMeasurement)
    (kf : KalmanFilter) : update (m :: rest) kf = updateOne m kf := by
  simp [update, updateOne_snd]

lemma update_fst_qt_hat (ms : List LandmarkMeasurement) (kf : KalmanFilter) :
    (update ms kf).1.qt_hat = kf.qt_hat := by
  cases ms with
  | nil => rfl
  | cons m rest => rw [update_cons, updateOne_fst]; exact update_measurements_qt_hat m kf

lemma update_fst_sigma_hat (ms : List LandmarkMeasurement) (kf : KalmanFilter) :
    (update ms kf).1.sigma_hat = kf.sigma_hat := by
  cases ms with
  | nil => rfl
  | cons m rest => rw [update_cons, updateOne_fst]; exact update_measurements_sigma_hat m kf

lemma update_fst_mt_hat (ms : List LandmarkMeasurement) (kf : KalmanFilter) :
    (update ms kf).1.mt_hat = kf.mt_hat := by
  cases ms with
  | nil => rfl
  | cons m rest => rw [update_cons, updateOne_fst]; exact update_measurements_mt_hat m kf

lemma update_fst_Xi_append (ms : List LandmarkMeasurement) (kf : KalmanFilter) :
    ∃ t, (update ms kf).1.Xi_hat = kf.Xi_hat ++ t := by
  cases ms with
  | nil => exact ⟨[], (List.append_nil _).symm⟩
  | cons m rest =>
    rw [update_cons, updateOne_fst]
    exact update_measurements_Xi_append m kf

/-- The pose block of `Xi_hat` holds its three initial zeros. -/
def poseZero (kf : KalmanFilter) : Prop :=
  kf.Xi_hat.get? 0 = some 0 ∧ kf.Xi_hat.get? 1 = some 0 ∧ kf.Xi_hat.get? 2 = some 0

lemma get?_append_of_some {l t : List ℝ} {n : ℕ} {a : ℝ} (h : l.get? n = some a) :
    (l ++ t).get? n = some a := by
  have hn : n < l.length := by
    by_contra hn
    push_neg at hn
    rw [List.get?_eq_none.2 hn] at h
    cases h
  rw [List.get?_append hn]
  exact h

lemma poseZero_init : poseZero KalmanFilter.init := ⟨rfl, rfl, rfl⟩

lemma poseZero_update_measurements {kf : KalmanFilter} (m : LandmarkMeasurement)
    (h : poseZero kf) : poseZero (update_measurements m kf) := by
  obtain ⟨t, ht⟩ := update_measurements_Xi_append m kf
  obtain ⟨h0, h1, h2⟩ := h
  exact ⟨by rw [ht]; exact get?_append_of_some h0,
         by rw [ht]; exact get?_append_of_some h1,
         by rw [ht]; exact get?_append_of_some h2⟩

lemma poseZero_predict {kf : KalmanFilter} (V : Twist2D) (h : poseZero kf) :
    poseZero (predict V kf) := by
  obtain ⟨h0, h1, h2⟩ := h
  refine ⟨?_, ?_, ?_⟩ <;> rw [predict_Xi_hat] <;> assumption

lemma poseZero_update {kf : KalmanFilter} (ms : List LandmarkMeasurement)
    (h : poseZero kf) : poseZero (update ms kf).1 := by
  obtain ⟨t, ht⟩ := update_fst_Xi_append ms kf
  obtain ⟨h0, h1, h2⟩ := h
  exact ⟨by rw [ht]; exact get?_append_of_some h0,
         by rw [ht]; exact get?_append_of_some h1,
         by rw [ht]; exact get?_append_of_some h2⟩

lemma reachable_poseZero {kf : KalmanFilter} (h : Reachable kf) : poseZero kf := by
  induction h with
  | ofInit => exact poseZero_init
  | ofPredict V kf _ ih => exact poseZero_predict V ih
  | ofUpdateMeasurements m kf _ ih => exact poseZero_update_measurements m ih
  | ofUpdate ms kf _ ih => exact poseZero_update ms ih

lemma reachable_mt_hat {kf : KalmanFilter} (h : Reachable kf) :
    kf.mt_hat = Mat.empty := by
  induction h with
  | ofInit => rfl
  | ofPredict V kf _ ih => rw [predict_mt_hat]; exact ih
  | ofUpdateMeasurements m kf _ ih => rw [update_measurements_mt_hat]; exact ih
  | ofUpdate ms kf _ ih => rw [update_fst_mt_hat]; exact ih

lemma update_measurements_Q_mat (m : LandmarkMeasurement) (kf : KalmanFilter) :
    (update_measurements m kf).Q_mat = kf.Q_mat := by
  unfold update_measurements
  split <;> rfl

lemma update_fst_Q_mat (ms : List LandmarkMeasurement) (kf : KalmanFilter) :
    (update ms kf).1.Q_mat = kf.Q_mat := by
  cases ms with
  | nil => rfl
  | cons m rest => rw [update_cons, updateOne_fst]; exact update_measurements_Q_mat m kf

/-- The single measurement of the end-to-end scenario of the spec: range 1,
bearing 0, marker id 5. -/
def mA : LandmarkMeasurement := ⟨1, 0, 5⟩

/-- The filter state after one `update` call with the scenario measurement on
a fresh filter. -/
def kfA : KalmanFilter := (update [mA] KalmanFilter.init).1

lemma update_measurements_mA_init : update_measurements mA KalmanFilter.init =
    { KalmanFilter.init with
      Xi_hat := [0, 0, 0, 1, 0]
      landmarks_dict := [(5, 5)] } := by
  unfold update_measurements
  rw [if_neg (by simp [mapContains, mapLookup, KalmanFilter.init])]
  simp only [KalmanFilter.init, mA, mapInsert]
  norm_num [normalize_angle_zero, Real.cos_zero, Real.sin_zero]

lemma kfA_eq : kfA =
    { KalmanFilter.init with
      Xi_hat := [0, 0, 0, 1, 0]
      landmarks_dict := [(5, 5)] } := by
  show (update [mA] KalmanFilter.init).1 = _
  rw [update_cons, updateOne_fst, update_measurements_mA_init]
  simp [mapFindOrInsert, mapLookup, mA]

/-- Claim C1: the correct step never changes the estimate.  For every filter
state and measurement batch, `update` leaves `qt_hat` and `sigma_hat` exactly
as they were and only ever appends initialization rows to `Xi_hat`; moreover
every call on a nonempty batch faults with an out-of-bounds armadillo access
during its first iteration, before any Kalman gain, innovation or posterior
update could be computed (the source stops after the expected measurement,
its steps 2-4 being comments with no code). -/
theorem update_applies_no_correction (kf : KalmanFilter) (m : LandmarkMeasurement)
    (ms : List LandmarkMeasurement) :
    (update ms kf).1.qt_hat = kf.qt_hat ∧
    (update ms kf).1.sigma_hat = kf.sigma_hat ∧
    (∃ t, (update ms kf).1.Xi_hat = kf.Xi_hat ++ t) ∧
    (update (m :: ms) kf).2 = true :=
  ⟨update_fst_qt_hat ms kf, update_fst_sigma_hat ms kf, update_fst_Xi_append ms kf,
    by rw [update_cons]; exact updateOne_snd m kf⟩

/-- Claim C2: the covariance does not grow in lock-step with the state.  No
`update_measurements` or `update` call ever touches `sigma_hat` or `Q_mat`;
concretely, after one correct call initializing landmark 5 the joint state
`Xi_hat` has 5 rows while `sigma_hat` and `Q_mat` are still `3 × 3`. -/
theorem sigma_does_not_grow :
    (∀ (m : LandmarkMeasurement) (kf : KalmanFilter),
      (update_measurements m kf).sigma_hat = kf.sigma_hat ∧
      (update_measurements m kf).Q_mat = kf.Q_mat) ∧
    (∀ (ms : List LandmarkMeasurement) (kf : KalmanFilter),
      (update ms kf).1.sigma_hat = kf.sigma_hat) ∧
    kfA.Xi_hat.length = 5 ∧
    kfA.sigma_hat.n_rows = 3 ∧ kfA.sigma_hat.n_cols = 3 ∧
    kfA.Q_mat.n_rows = 3 ∧ kfA.Q_mat.n_cols = 3 := by
  refine ⟨fun m kf => ⟨update_measurements_sigma_hat m kf, update_measurements_Q_mat m kf⟩,
    fun ms kf => update_fst_sigma_hat ms kf, ?_, ?_, ?_, ?_, ?_⟩ <;>
    rw [kfA_eq] <;> rfl

/-- Claim C3: the landmark index map records an out-of-bounds offset.  After
the first sighting of landmark 5 on a fresh filter the dictionary maps 5 to
offset 5 (the row count of `Xi_hat` measured after the append), but `Xi_hat`
has rows 0 to 4 only, so the recorded offset is not a valid 2-row block (the
block actually written sits at rows 3 and 4). -/
theorem landmark_offset_invalid :
    mapLookup kfA.landmarks_dict 5 = some 5 ∧
    kfA.Xi_hat.length = 5 ∧
    kfA.Xi_hat.get? 5 = none := by
  rw [kfA_eq]
  refine ⟨by simp [mapLookup], rfl, rfl⟩

/-- Claim C4: the end-to-end scenario.  With the robot estimate at the origin,
one correct call with the measurement (r = 1, phi = 0, id = 5) does append the
global position (1, 0) to `Xi_hat` and does record key 5 in the index map, and
a second identical call does not grow `Xi_hat`; but both calls fault with an
out-of-bounds armadillo access (`Xi_hat(5, 0)` on a 5-row vector), because the
recorded offset is 5 instead of 3, so neither correct call completes. -/
theorem single_landmark_scenario :
    kfA.Xi_hat = [0, 0, 0, 1, 0] ∧
    mapLookup kfA.landmarks_dict 5 = some 5 ∧
    (update [mA] KalmanFilter.init).2 = true ∧
    (update [mA] kfA).1.Xi_hat = kfA.Xi_hat ∧
    (update [mA] kfA).2 = true := by
  refine ⟨by rw [kfA_eq], by rw [kfA_eq]; simp [mapLookup], ?_, ?_, ?_⟩
  · rw [update_cons]; exact updateOne_snd mA KalmanFilter.init
  · rw [update_cons, updateOne_fst]
    have hseen : update_measurements mA kfA = kfA := by
      unfold update_measurements
      rw [if_pos]
      rw [kfA_eq]
      simp [mapContains, mapLookup, mA]
    rw [hseen]
  · rw [update_cons]; exact updateOne_snd mA kfA

/-- Claim C5: a zero-twist predict does not leave the pose prediction
unchanged.  After one predict with pure rotation (thetadot = 1, xdot = 0) the
predicted heading is 1; a following predict with the zero twist resets it to
0, because the straight-line branch writes the literal angle 0 (and reads the
never-updated pose block of `Xi_hat`) instead of preserving the heading. -/
theorem zero_twist_predict_resets_heading :
    (pose_prediction (predict ⟨1, 0, 0⟩ KalmanFilter.init)).get? 0 = some 1 ∧
    (pose_prediction (predict ⟨0, 0, 0⟩ (predict ⟨1, 0, 0⟩ KalmanFilter.init))).get? 0 =
      some 0 ∧
    (1 : ℝ) ≠ 0 := by
  have hne : ¬almost_equal (1 : ℝ) 0 := by
    have := not_almost_equal_of_int_ne_zero (c := 1) (by norm_num)
    simpa using this
  have hzero : ∀ kf : KalmanFilter,
      (predict ⟨0, 0, 0⟩ kf).qt_hat.get? 0 = some 0 := by
    intro kf
    unfold predict
    split
    · rfl
    · next h => exact absurd almost_equal_self_zero (by simpa using h)
  refine ⟨?_, hzero _, one_ne_zero⟩
  rw [pose_prediction]
  unfold predict
  split
  · next h => exact absurd (by simpa using h) hne
  · simp [KalmanFilter.init]
    norm_num [normalize_angle_one]

/-- Claim C9: the pose block of `Xi_hat` is never written.  On every reachable
state its first three entries are still the initial zeros; `predict` leaves
`Xi_hat` (and the dictionary) untouched, `update` only appends rows, and the
initialization of an unseen landmark computes its global position from that
frozen zero pose (so the result depends only on the measurement, not on the
pose prediction `qt_hat`). -/
theorem pose_block_never_written (kf : KalmanFilter) (h : Reachable kf) :
    (kf.Xi_hat.get? 0 = some 0 ∧ kf.Xi_hat.get? 1 = some 0 ∧
      kf.Xi_hat.get? 2 = some 0) ∧
    (∀ V, (predict V kf).Xi_hat = kf.Xi_hat ∧
      (predict V kf).landmarks_dict = kf.landmarks_dict) ∧
    (∀ ms, ∃ t, (update ms kf).1.Xi_hat = kf.Xi_hat ++ t) ∧
    (∀ m : LandmarkMeasurement, mapContains kf.landmarks_dict m.marker_id = false →
      (update_measurements m kf).Xi_hat =
        kf.Xi_hat ++ [m.r * Real.cos (normalize_angle m.phi),
          m.r * Real.sin (normalize_angle m.phi)]) := by
  obtain ⟨h0, h1, h2⟩ := reachable_poseZero h
  refine ⟨⟨h0, h1, h2⟩, fun V => ⟨predict_Xi_hat V kf, predict_landmarks_dict V kf⟩,
    fun ms => update_fst_Xi_append ms kf, fun m hm => ?_⟩
  unfold update_measurements
  rw [if_neg (by simp [hm])]
  rw [h0, h1, h2]
  norm_num

/-- Witness for claim C9 at the concrete reachable state reached by one
correct call on a fresh filter. -/
theorem pose_block_never_written_witness :
    kfA.Xi_hat.get? 0 = some 0 ∧ kfA.Xi_hat.get? 1 = some 0 ∧
      kfA.Xi_hat.get? 2 = some 0 :=
  (pose_block_never_written kfA
    (Reachable.ofUpdate [mA] KalmanFilter.init Reachable.ofInit)).1

/-- Claim C10: the map state member `mt_hat` is never assigned by any
operation, so `map_prediction` returns the default constructed empty matrix
on every reachable state, however many landmarks were initialized into
`Xi_hat`. -/
theorem map_prediction_always_empty (kf : KalmanFilter) (h : Reachable kf) :
    map_prediction kf = Mat.empty := by
  rw [map_prediction]
  exact reachable_mt_hat h

/-- Witness for claim C10 at the state reached by one correct call that
initialized landmark 5. -/
theorem map_prediction_always_empty_witness :
    map_prediction kfA = Mat.empty :=
  map_prediction_always_empty kfA
    (Reachable.ofUpdate [mA] KalmanFilter.init Reachable.ofInit)

lemma complex_mk_abs (x y : ℝ) :
    Complex.abs ⟨x, y⟩ = Real.sqrt (x ^ 2 + y ^ 2) := by
  rw [Complex.abs_apply, Complex.normSq_mk]
  congr 1
  ring

lemma cos_atan2 (y x : ℝ) (h : Real.sqrt (x ^ 2 + y ^ 2) ≠ 0) :
    Real.cos (atan2 y x) = x / Real.sqrt (x ^ 2 + y ^ 2) := by
  have hz : (⟨x, y⟩ : ℂ) ≠ 0 := by
    intro h0
    apply h
    have hx : x = 0 := congrArg Complex.re h0
    have hy : y = 0 := congrArg Complex.im h0
    rw [hx, hy]
    simp
  rw [atan2, Complex.cos_arg hz, complex_mk_abs]

lemma sin_atan2 (y x : ℝ) :
    Real.sin (atan2 y x) = y / Real.sqrt (x ^ 2 + y ^ 2) := by
  rw [atan2, Complex.sin_arg, complex_mk_abs]

lemma resolve_collision_of_far {obr cr ox oy : ℝ} {p : Pose2D}
    (h : obr + cr < distance (ox, oy) (p.x, p.y)) :
    resolve_collision obr cr (ox, oy) p = p := by
  simp only [resolve_collision]
  rw [if_neg]
  intro hc
  linarith

lemma resolve_collision_of_near {obr cr ox oy : ℝ} {p : Pose2D}
    (h : distance (ox, oy) (p.x, p.y) ≤ obr + cr) :
    resolve_collision obr cr (ox, oy) p =
      { p with
        x := ox + Real.cos (atan2 (p.y - oy) (p.x - ox)) * (obr + cr)
        y := oy + Real.sin (atan2 (p.y - oy) (p.x - ox)) * (obr + cr) } := by
  simp only [resolve_collision]
  rw [if_pos]
  linarith

/-- Claim C7: the collision resolver.  Obstacles are processed sequentially in
declaration order.  For one obstacle, when the distance from the robot center
to the obstacle center is at most `obstacles_r + collision_radius` (touch
included), the resolved pose sits at exactly that distance from the obstacle
center, with the heading untouched and the bearing from the obstacle center
preserved (the new offset is a positive multiple of the old one whenever the
centers are distinct); when the distance exceeds that sum the pose is
unchanged. -/
theorem detect_collision_spec (obr cr ox oy : ℝ) (p : Pose2D) (obs : List (ℝ × ℝ)) :
    (distance (ox, oy) (p.x, p.y) ≤ obr + cr →
      distance (ox, oy)
          ((resolve_collision obr cr (ox, oy) p).x, (resolve_collision obr cr (ox, oy) p).y)
        = obr + cr ∧
      (resolve_collision obr cr (ox, oy) p).theta = p.theta ∧
      (0 < distance (ox, oy) (p.x, p.y) →
        ∃ t : ℝ, 0 < t ∧
          (resolve_collision obr cr (ox, oy) p).x - ox = t * (p.x - ox) ∧
          (resolve_collision obr cr (ox, oy) p).y - oy = t * (p.y - oy))) ∧
    (obr + cr < distance (ox, oy) (p.x, p.y) → resolve_collision obr cr (ox, oy) p = p) ∧
    detect_collision obr cr obs p =
      obs.foldl (fun q ob => resolve_collision obr cr ob q) p := by
  refine ⟨fun hle => ?_, fun hgt => resolve_collision_of_far hgt, rfl⟩
  have hd0 : 0 ≤ distance (ox, oy) (p.x, p.y) := Real.sqrt_nonneg _
  have hs : 0 ≤ obr + cr := le_trans hd0 hle
  set a := atan2 (p.y - oy) (p.x - ox) with ha
  rw [resolve_collision_of_near hle]
  refine ⟨?_, rfl, fun hdpos => ?_⟩
  · show distance (ox, oy)
        (ox + Real.cos a * (obr + cr), oy + Real.sin a * (obr + cr)) = obr + cr
    have key : distance (ox, oy)
        (ox + Real.cos a * (obr + cr), oy + Real.sin a * (obr + cr)) =
          Real.sqrt ((obr + cr) ^ 2) := by
      rw [distance]
      congr 1
      calc (ox - (ox + Real.cos a * (obr + cr))) ^ 2 +
            (oy - (oy + Real.sin a * (obr + cr))) ^ 2
          = ((Real.sin a) ^ 2 + (Real.cos a) ^ 2) * (obr + cr) ^ 2 := by ring
        _ = (obr + cr) ^ 2 := by rw [Real.sin_sq_add_cos_sq, one_mul]
    rw [key, Real.sqrt_sq_eq_abs, abs_of_nonneg hs]
  · have hD : distance (ox, oy) (p.x, p.y) =
        Real.sqrt ((p.x - ox) ^ 2 + (p.y - oy) ^ 2) := by
      rw [distance]
      congr 1
      ring
    rw [hD] at hdpos hle
    have hDne : Real.sqrt ((p.x - ox) ^ 2 + (p.y - oy) ^ 2) ≠ 0 := ne_of_gt hdpos
    have hspos : 0 < obr + cr := lt_of_lt_of_le hdpos hle
    refine ⟨(obr + cr) / Real.sqrt ((p.x - ox) ^ 2 + (p.y - oy) ^ 2),
      div_pos hspos hdpos, ?_, ?_⟩
    · show ox + Real.cos a * (obr + cr) - ox = _
      rw [ha, cos_atan2 _ _ hDne]
      field_simp
      ring
    · show oy + Real.sin a * (obr + cr) - oy = _
      rw [ha, sin_atan2]
      field_simp
      ring

/-- Witness for claim C7: the robot at (1, 0, 0) touching an obstacle
centered at the origin with combined radius 2 is pushed out to distance
exactly 2. -/
theorem detect_collision_spec_witness :
    distance (0, 0)
        ((resolve_collision 2 0 (0, 0) ⟨1, 0, 0⟩).x,
          (resolve_collision 2 0 (0, 0) ⟨1, 0, 0⟩).y) = 2 + 0 := by
  have hdist : distance (0, 0) ((1 : ℝ), (0 : ℝ)) = 1 := by
    rw [distance]
    norm_num
  exact ((detect_collision_spec 2 0 0 0 ⟨1, 0, 0⟩ []).1 (by rw [hdist]; norm_num)).1

lemma wheel_cmd_true_speeds (P : NusimParams) (cl cr : ℤ) (nl nr sl sr : ℝ)
    (s : NusimState) :
    (wheel_cmd_callback P cl cr nl nr sl sr s).true_wheel_speeds =
      ⟨(cl : ℝ) * P.motor_cmd_per_rad_sec, (cr : ℝ) * P.motor_cmd_per_rad_sec⟩ := by
  unfold wheel_cmd_callback
  (repeat' split) <;> rfl

lemma wheel_cmd_noisy_speeds (P : NusimParams) (cl cr : ℤ) (nl nr sl sr : ℝ)
    (s : NusimState) :
    (wheel_cmd_callback P cl cr nl nr sl sr s).noisy_wheel_speeds =
      ⟨if almost_equal (cl : ℝ) 0 then (cl : ℝ) * P.motor_cmd_per_rad_sec
        else (cl : ℝ) * P.motor_cmd_per_rad_sec + nl,
       if almost_equal (cr : ℝ) 0 then (cr : ℝ) * P.motor_cmd_per_rad_sec
        else (cr : ℝ) * P.motor_cmd_per_rad_sec + nr⟩ := by
  unfold wheel_cmd_callback
  (repeat' split) <;> rfl

lemma wheel_cmd_slips (P : NusimParams) (cl cr : ℤ) (nl nr sl sr : ℝ)
    (s : NusimState) :
    (wheel_cmd_callback P cl cr nl nr sl sr s).left_slip =
        (if ¬almost_equal P.slip_fraction 0 then sl else s.left_slip) ∧
      (wheel_cmd_callback P cl cr nl nr sl sr s).right_slip =
        (if ¬almost_equal P.slip_fraction 0 then sr else s.right_slip) := by
  constructor <;> (unfold wheel_cmd_callback; (repeat' split) <;> rfl)

lemma wheel_cmd_keeps (P : NusimParams) (cl cr : ℤ) (nl nr sl sr : ℝ)
    (s : NusimState) :
    (wheel_cmd_callback P cl cr nl nr sl sr s).true_wheel_angles = s.true_wheel_angles ∧
    (wheel_cmd_callback P cl cr nl nr sl sr s).slippy_wheel_angles =
      s.slippy_wheel_angles ∧
    (wheel_cmd_callback P cl cr nl nr sl sr s).true_pose = s.true_pose := by
  refine ⟨?_, ?_, ?_⟩ <;> (unfold wheel_cmd_callback; (repeat' split) <;> rfl)

/-- Claim C6 (amended): which path each random sample feeds.  The true wheel
speeds are the noise-free converted commands; for a nonzero command the
Gaussian sample is added to produce the noisy wheel speed; the slip samples
are stored when slip is enabled; the timer advances the true wheel angles by
the true (noise-free) speeds and the slippy wheel angles by the noisy speeds
scaled by `1 + slip`; the ground truth pose comes from forward kinematics on
the true wheel angles (then collision resolution) and is therefore both
noise-free and slip-free, while the encoders quantize the slippy angles. -/
theorem noise_and_slip_feed_encoder_path (P : NusimParams) (cl cr : ℤ)
    (nl nr sl sr : ℝ) (s : NusimState) (fk : Pose2D → WheelState → Pose2D) :
    (wheel_cmd_callback P cl cr nl nr sl sr s).true_wheel_speeds =
      ⟨(cl : ℝ) * P.motor_cmd_per_rad_sec, (cr : ℝ) * P.motor_cmd_per_rad_sec⟩ ∧
    (cl ≠ 0 → (wheel_cmd_callback P cl cr nl nr sl sr s).noisy_wheel_speeds.left =
      (cl : ℝ) * P.motor_cmd_per_rad_sec + nl) ∧
    (cr ≠ 0 → (wheel_cmd_callback P cl cr nl nr sl sr s).noisy_wheel_speeds.right =
      (cr : ℝ) * P.motor_cmd_per_rad_sec + nr) ∧
    (¬almost_equal P.slip_fraction 0 →
      (wheel_cmd_callback P cl cr nl nr sl sr s).left_slip = sl ∧
      (wheel_cmd_callback P cl cr nl nr sl sr s).right_slip = sr) ∧
    (∀ w : NusimState,
      (timer_callback fk P w).true_wheel_angles =
        ⟨w.true_wheel_angles.left + w.true_wheel_speeds.left * (1 / (P.rate : ℝ)),
         w.true_wheel_angles.right + w.true_wheel_speeds.right * (1 / (P.rate : ℝ))⟩ ∧
      (timer_callback fk P w).slippy_wheel_angles =
        ⟨w.slippy_wheel_angles.left +
            w.noisy_wheel_speeds.left * (1 + w.left_slip) * (1 / (P.rate : ℝ)),
         w.slippy_wheel_angles.right +
            w.noisy_wheel_speeds.right * (1 + w.right_slip) * (1 / (P.rate : ℝ))⟩ ∧
      (timer_callback fk P w).true_pose =
        detect_collision P.obstacles_r P.collision_radius P.obstacles
          (fk w.true_pose (timer_callback fk P w).true_wheel_angles) ∧
      (timer_callback fk P w).left_encoder =
        cIntCast ((timer_callback fk P w).slippy_wheel_angles.left *
          P.encoder_ticks_per_rad) ∧
      (timer_callback fk P w).right_encoder =
        cIntCast ((timer_callback fk P w).slippy_wheel_angles.right *
          P.encoder_ticks_per_rad)) := by
  refine ⟨wheel_cmd_true_speeds P cl cr nl nr sl sr s, fun hl => ?_, fun hr => ?_,
    fun hslip => ?_, fun w => ⟨rfl, rfl, rfl, rfl, rfl⟩⟩
  · rw [wheel_cmd_noisy_speeds]
    exact if_neg (not_almost_equal_of_int_ne_zero hl)
  · rw [wheel_cmd_noisy_speeds]
    exact if_neg (not_almost_equal_of_int_ne_zero hr)
  · obtain ⟨h1, h2⟩ := wheel_cmd_slips P cl cr nl nr sl sr s
    rw [h1, h2, if_pos hslip, if_pos hslip]
    exact ⟨rfl, rfl⟩

/-- Concrete parameter vector used by the claim witnesses: unit conversion
factors, unit rate, slip disabled, no obstacles. -/
def pX : NusimParams :=
  { motor_cmd_per_rad_sec := 1
    rate := 1
    input_noise := 1
    slip_fraction := 0
    encoder_ticks_per_rad := 1
    obstacles := []
    obstacles_r := 0
    collision_radius := 0 }

/-- Variant of `pX` with slip enabled. -/
def pS : NusimParams := { pX with slip_fraction := 1 / 2 }

/-- Concrete zeroed node state used by the claim witnesses. -/
def sX : NusimState :=
  { true_wheel_speeds := ⟨0, 0⟩
    noisy_wheel_speeds := ⟨0, 0⟩
    true_wheel_angles := ⟨0, 0⟩
    slippy_wheel_angles := ⟨0, 0⟩
    left_noise := 0
    right_noise := 0
    left_slip := 0
    right_slip := 0
    true_pose := ⟨0, 0, 0⟩
    left_encoder := 0
    right_encoder := 0
    step := 0 }

/-- Probe forward kinematics: returns the wheel angles it was handed, so the
resulting pose records which wheel trajectory fed the ground truth path. -/
def probeFK : Pose2D → WheelState → Pose2D := fun p w => ⟨w.left, w.right, p.theta⟩

/-- Witness for claim C6 (amended) with slip enabled and the command (1, 1). -/
theorem noise_and_slip_feed_encoder_path_witness :
    (wheel_cmd_callback pS 1 1 (1 / 2) (1 / 3) (1 / 4) (1 / 5) sX).noisy_wheel_speeds.left =
        ((1 : ℤ) : ℝ) * pS.motor_cmd_per_rad_sec + 1 / 2 ∧
      (wheel_cmd_callback pS 1 1 (1 / 2) (1 / 3) (1 / 4) (1 / 5) sX).left_slip = 1 / 4 := by
  have h := noise_and_slip_feed_encoder_path pS 1 1 (1 / 2) (1 / 3) (1 / 4) (1 / 5) sX probeFK
  refine ⟨h.2.1 (by norm_num), (h.2.2.2.1 ?_).1⟩
  show ¬almost_equal pS.slip_fraction 0
  rw [show pS.slip_fraction = 1 / 2 from rfl, almost_equal, sub_zero,
    abs_of_pos (by norm_num : (0 : ℝ) < 1 / 2)]
  norm_num [eps]

/-- State after the wheel command (1, 1) with drawn noise 1/2 per wheel on the
zeroed state, with unit conversion factor and slip disabled. -/
def cX : NusimState := wheel_cmd_callback pX 1 1 (1 / 2) (1 / 2) 0 0 sX

/-- Claim C6 counterexample: the Gaussian sample does not produce the true
wheel speed used for ground-truth integration.  With unit conversion factor,
command (1, 1) and drawn noise 1/2, the stored true wheel speed is 1, not
1 + 1/2; a timer tick integrates the true (noise-free) angle 1 into the
ground-truth pose (observed through the probe kinematics), while the noisy
speed 1 + 1/2 feeds only the slippy wheel angles behind the encoders. -/
theorem noise_not_in_true_speed :
    cX.true_wheel_speeds.left = 1 ∧
    cX.noisy_wheel_speeds.left = 1 + 1 / 2 ∧
    cX.true_wheel_speeds.left ≠ ((1 : ℤ) : ℝ) * pX.motor_cmd_per_rad_sec + 1 / 2 ∧
    (timer_callback probeFK pX cX).true_pose.x = 1 ∧
    (timer_callback probeFK pX cX).slippy_wheel_angles.left = 1 + 1 / 2 := by
  have hne : ¬almost_equal ((1 : ℤ) : ℝ) 0 := not_almost_equal_of_int_ne_zero one_ne_zero
  have htrue : cX.true_wheel_speeds = ⟨1, 1⟩ := by
    rw [cX, wheel_cmd_true_speeds]
    norm_num [pX]
  have hnoisy : cX.noisy_wheel_speeds = ⟨1 + 1 / 2, 1 + 1 / 2⟩ := by
    rw [cX, wheel_cmd_noisy_speeds, if_neg hne]
    norm_num [pX]
  have hslip : cX.left_slip = 0 ∧ cX.right_slip = 0 := by
    obtain ⟨h1, h2⟩ := wheel_cmd_slips pX 1 1 (1 / 2) (1 / 2) 0 0 sX
    have hz : almost_equal pX.slip_fraction 0 := by
      show almost_equal (0 : ℝ) 0
      exact almost_equal_self_zero
    rw [cX, h1, h2, if_neg (by simpa using hz), if_neg (by simpa using hz)]
    exact ⟨rfl, rfl⟩
  have hangles : cX.true_wheel_angles = ⟨0, 0⟩ ∧ cX.slippy_wheel_angles = ⟨0, 0⟩ ∧
      cX.true_pose = ⟨0, 0, 0⟩ := by
    obtain ⟨k1, k2, k3⟩ := wheel_cmd_keeps pX 1 1 (1 / 2) (1 / 2) 0 0 sX
    exact ⟨by rw [cX, k1]; rfl, by rw [cX, k2]; rfl, by rw [cX, k3]; rfl⟩
  refine ⟨by rw [htrue], by rw [hnoisy], ?_, ?_, ?_⟩
  · rw [htrue]
    norm_num [pX]
  · show (detect_collision pX.obstacles_r pX.collision_radius pX.obstacles
      (probeFK cX.true_pose _)).x = 1
    rw [show pX.obstacles = [] from rfl]
    show (probeFK cX.true_pose
      ⟨cX.true_wheel_angles.left + cX.true_wheel_speeds.left * (1 / ((pX.rate : ℤ) : ℝ)),
       cX.true_wheel_angles.right + cX.true_wheel_speeds.right * (1 / ((pX.rate : ℤ) : ℝ))⟩).x = 1
    rw [probeFK]
    show cX.true_wheel_angles.left + cX.true_wheel_speeds.left * (1 / ((pX.rate : ℤ) : ℝ)) = 1
    rw [htrue, hangles.1]
    norm_num [pX]
  · show cX.slippy_wheel_angles.left +
      cX.noisy_wheel_speeds.left * (1 + cX.left_slip) * (1 / ((pX.rate : ℤ) : ℝ)) = 1 + 1 / 2
    rw [hnoisy, hangles.2.1, hslip.1]
    norm_num [pX]

/-- Claim C8: no noise on an idle wheel.  A wheel whose integer command is
zero gets a noisy speed exactly equal to its true speed; a wheel with a
nonzero command gets its drawn Gaussian sample added. -/
theorem idle_wheel_noise_free (P : NusimParams) (cl cr : ℤ) (nl nr sl sr : ℝ)
    (s : NusimState) :
    (cl = 0 → (wheel_cmd_callback P cl cr nl nr sl sr s).noisy_wheel_speeds.left =
      (wheel_cmd_callback P cl cr nl nr sl sr s).true_wheel_speeds.left) ∧
    (cl ≠ 0 → (wheel_cmd_callback P cl cr nl nr sl sr s).noisy_wheel_speeds.left =
      (wheel_cmd_callback P cl cr nl nr sl sr s).true_wheel_speeds.left + nl) ∧
    (cr = 0 → (wheel_cmd_callback P cl cr nl nr sl sr s).noisy_wheel_speeds.right =
      (wheel_cmd_callback P cl cr nl nr sl sr s).true_wheel_speeds.right) ∧
    (cr ≠ 0 → (wheel_cmd_callback P cl cr nl nr sl sr s).noisy_wheel_speeds.right =
      (wheel_cmd_callback P cl cr nl nr sl sr s).true_wheel_speeds.right + nr) := by
  have hz : ∀ c : ℤ, c = 0 → almost_equal (c : ℝ) 0 := by
    intro c hc
    subst hc
    simpa using almost_equal_self_zero
  rw [wheel_cmd_noisy_speeds, wheel_cmd_true_speeds]
  refine ⟨fun h => ?_, fun h => ?_, fun h => ?_, fun h => ?_⟩
  · rw [if_pos (hz cl h)]
  · rw [if_neg (not_almost_equal_of_int_ne_zero h)]
  · rw [if_pos (hz cr h)]
  · rw [if_neg (not_almost_equal_of_int_ne_zero h)]

/-- Witness for claim C8 with the command (0, 1): the idle left wheel is
noise-free, the driven right wheel receives its sample. -/
theorem idle_wheel_noise_free_witness :
    (wheel_cmd_callback pX 0 1 (1 / 2) (1 / 2) 0 0 sX).noisy_wheel_speeds.left =
        (wheel_cmd_callback pX 0 1 (1 / 2) (1 / 2) 0 0 sX).true_wheel_speeds.left ∧
      (wheel_cmd_callback pX 0 1 (1 / 2) (1 / 2) 0 0 sX).noisy_wheel_speeds.right =
        (wheel_cmd_callback pX 0 1 (1 / 2) (1 / 2) 0 0 sX).true_wheel_speeds.right + 1 / 2 := by
  have h := idle_wheel_noise_free pX 0 1 (1 / 2) (1 / 2) 0 0 sX
  exact ⟨h.1 rfl, h.2.2.2 one_ne_zero⟩

end

end Turtlebot
